import Mathlib

/-!
# Verification of the FitnessApp plan-generation and progression engine

A shallow embedding of the core logic of the FitnessApp repository:

* `src/planner.py` — `WorkoutPlanner`: training-split selection, workout
  schedule construction, progressive overload / deload across weeks;
* `src/Engine.py` — `WorkoutRecommender.get_daily_recommendation` and its
  recovery / alternative-day / completed fallback rules;
* `src/progresstracker.py` — `ProgressTracker`: Brzycki 1RM, daily grouping,
  least-squares linear trend, progression-record persistence.

Python strings are modelled as Lean `String` with character-list level
helpers (so that everything evaluates by `decide`); floats are modelled as
exact rationals `ℚ`; fallible code (string-to-int parsing that can raise
`ValueError`) returns `Option`.
-/

namespace FitnessApp

/-! ## String helpers (models of the Python string operations used) -/

/-- Split a character list on the dash character; models Python
`s.split("-")` at the character level (structural, hence executable in the
kernel). `splitDash [] = [[]]` just as `"".split("-") == [""]`. -/
def splitDash : List Char → List (List Char)
  | [] => [[]]
  | c :: cs =>
    if c = '-' then [] :: splitDash cs
    else
      match splitDash cs with
      | g :: gs => (c :: g) :: gs
      | [] => [[c]]

/-- Python `int(s)` restricted to the shapes appearing in this code base:
a non-empty all-digit string parses to its value, anything else raises
`ValueError` (modelled as `none`).  The repository never feeds signed or
whitespace-padded numerals to `int`. -/
def natOfDigits (cs : List Char) : Option Nat :=
  if cs = [] then none
  else if cs.all Char.isDigit then
    some (cs.foldl (fun a c => 10 * a + (c.toNat - 48)) 0)
  else none

/-- Models `min_reps, max_reps = map(int, reps.split("-"))`: succeeds iff the
split yields exactly two pieces and both parse as integers. -/
def parseRange (s : String) : Option (Nat × Nat) :=
  match (splitDash s.data).map natOfDigits with
  | [some a, some b] => some (a, b)
  | _ => none

/-- Models Python `"-" in s`. -/
def hasDash (s : String) : Bool := s.data.any (· == '-')

/-- Models Python `s.lower()` (ASCII titles only in this code base). -/
def strLower (s : String) : String := ⟨s.data.map Char.toLower⟩

/-- `leadsWith n h` : the character list `n` is an initial segment of `h`. -/
def leadsWith : List Char → List Char → Bool
  | [], _ => true
  | _ :: _, [] => false
  | a :: as, b :: bs => a == b && leadsWith as bs

/-- `occursIn n h` : `n` occurs contiguously inside `h`. -/
def occursIn (needle : List Char) : List Char → Bool
  | [] => needle.isEmpty
  | b :: bs => leadsWith needle (b :: bs) || occursIn needle bs

/-- Models Python's substring test `needle in hay`. -/
def strIn (needle hay : String) : Bool := occursIn needle.data hay.data

/-- `mapOpt f l` : `some` of the list of results if `f` succeeds on every
element, `none` as soon as one fails.  Models a Python loop whose body can
raise an exception. -/
def mapOpt (f : α → Option β) : List α → Option (List β)
  | [] => some []
  | a :: as =>
    match f a, mapOpt f as with
    | some b, some bs => some (b :: bs)
    | _, _ => none

theorem mapOpt_mem {f : α → Option β} {l : List α} {l' : List β}
    (h : mapOpt f l = some l') : ∀ b ∈ l', ∃ a ∈ l, f a = some b := by
  induction l generalizing l' with
  | nil => simp [mapOpt] at h; subst h; simp
  | cons a as ih =>
    simp only [mapOpt] at h
    rcases hfa : f a with _ | b₀ <;> rw [hfa] at h
    · exact absurd h (by simp)
    rcases hrest : mapOpt f as with _ | bs <;> rw [hrest] at h
    · exact absurd h (by simp)
    cases h
    intro b hb
    rw [List.mem_cons] at hb
    rcases hb with rfl | hb
    · exact ⟨a, by simp, hfa⟩
    · obtain ⟨a', ha', hfa'⟩ := ih hrest b hb
      exact ⟨a', by simp [ha'], hfa'⟩

theorem mapOpt_none_of_mem {f : α → Option β} {l : List α} {a : α}
    (ha : a ∈ l) (hf : f a = none) : mapOpt f l = none := by
  induction l with
  | nil => cases ha
  | cons x xs ih =>
    rw [List.mem_cons] at ha
    rcases ha with rfl | ha
    · simp [mapOpt, hf]
    · simp only [mapOpt]
      rcases f x with _ | b
      · rfl
      · rw [ih ha]

/-! ## Planner data model (`src/planner.py`) -/

/-- A row of the exercise catalogue as it appears in `sample_exercises`. -/
structure CatalogExercise where
  id : Nat
  title : String
  ty : String
  muscle_group : String
  equipment : String
  level : String
  instructions : String := ""
  deriving Repr, DecidableEq

/-- The `exercise_config` dict built by `_create_workout_schedule`. -/
structure ExerciseConfig where
  id : Nat
  title : String
  sets : Nat
  reps : String
  rest : String
  tempo : String
  notes : String
  deriving Repr, DecidableEq

/-- One day of a workout schedule: focus label plus exercise list. -/
structure DayWorkout where
  focus : String
  exercises : List ExerciseConfig
  deriving Repr, DecidableEq

/-- One entry of the progressive plan produced by `_apply_progression`. -/
structure WeekPlan where
  week : Nat
  is_deload : Bool
  workouts : List DayWorkout
  deriving Repr, DecidableEq

/-- The goal-specific split table of `_determine_training_split`. -/
def trainingSplits (goal : String) (n : Nat) : Option (List String) :=
  if goal = "Sports and Athletics" then
    match n with
    | 2 => some ["Full Body", "Full Body"]
    | 3 => some ["Upper Body", "Lower Body", "Full Body"]
    | 4 => some ["Upper Body", "Lower Body", "Cardio/Plyometrics", "Sport Specific"]
    | 5 => some ["Upper Push", "Lower Pull", "Rest/Recovery", "Upper Pull", "Lower Push"]
    | _ => none
  else if goal = "Body Building" then
    match n with
    | 3 => some ["Push", "Pull", "Legs"]
    | 4 => some ["Upper Body", "Lower Body", "Upper Body", "Lower Body"]
    | 5 => some ["Chest/Triceps", "Back/Biceps", "Legs/Shoulders", "Upper Body", "Lower Body"]
    | 6 => some ["Push", "Pull", "Legs", "Push", "Pull", "Legs"]
    | _ => none
  else if goal = "Body Weight Fitness" then
    match n with
    | 2 => some ["Upper Body", "Lower Body"]
    | 3 => some ["Push", "Pull", "Legs/Core"]
    | 4 => some ["Horizontal Push/Pull", "Legs", "Vertical Push/Pull", "Core/Conditioning"]
    | _ => none
  else if goal = "Weight Loss" then
    match n with
    | 2 => some ["Full Body + HIIT", "Full Body + Steady Cardio"]
    | 3 => some ["Upper Body + HIIT", "Lower Body + HIIT", "Full Body + Steady Cardio"]
    | 4 => some ["Upper Push + HIIT", "Lower Body + Steady Cardio", "Upper Pull + HIIT", "Full Body Circuit"]
    | _ => none
  else if goal = "Mobility Exclusive" then
    match n with
    | 2 => some ["Upper Body Mobility", "Lower Body Mobility"]
    | 3 => some ["Dynamic Mobility", "Static Stretching", "Joint Mobility"]
    | 4 => some ["Upper Body Mobility", "Lower Body Mobility", "Full Body Flow", "Targeted Rehab"]
    | _ => none
  else none

/-- The `default_splits` table of `_determine_training_split`. -/
def defaultSplits (n : Nat) : Option (List String) :=
  match n with
  | 1 => some ["Full Body"]
  | 2 => some ["Upper Body", "Lower Body"]
  | 3 => some ["Push", "Pull", "Legs"]
  | 4 => some ["Upper Body", "Lower Body", "Upper Body", "Lower Body"]
  | 5 => some ["Chest/Triceps", "Back/Biceps", "Legs", "Shoulders/Arms", "Full Body"]
  | 6 => some ["Push", "Pull", "Legs", "Push", "Pull", "Legs"]
  | 7 => some ["Chest", "Back", "Legs", "Shoulders", "Arms", "Full Body", "Active Recovery"]
  | _ => none

/-- `WorkoutPlanner._determine_training_split`: cap the frequency at 7, look
up the (goal, count) table, else the count-only default table, else
`["Full Body"] * count`. -/
def determineTrainingSplit (goal : String) (workouts_per_week : Nat) : List String :=
  let w := if workouts_per_week > 7 then 7 else workouts_per_week
  match trainingSplits goal w with
  | some s => s
  | none =>
    match defaultSplits w with
    | some s => s
    | none => List.replicate w "Full Body"

/-! ### Exercise selection (`_select_exercises_for_focus`) -/

/-- The per-type exercise quota dictionary. -/
structure Counts where
  comp : Nat
  iso : Nat
  cardio : Nat
  mob : Nat
  deriving Repr, DecidableEq

/-- The per-level base quota table (default: the Beginner row). -/
def baseCounts (lvl : String) : Counts :=
  if lvl = "Beginner" then ⟨2, 2, 1, 1⟩
  else if lvl = "Intermediate" then ⟨3, 3, 1, 1⟩
  else if lvl = "Advanced" then ⟨4, 4, 1, 1⟩
  else ⟨2, 2, 1, 1⟩

/-- The goal-driven quota adjustment (`if/elif` chain, so at most one
branch fires).  Subtraction is natural-number subtraction; the bases it is
applied to are ≥ 2 so no clamping ever actually occurs. -/
def adjustCounts (goal : String) (c : Counts) : Counts :=
  if strIn "Body Building" goal then { c with iso := c.iso + 1 }
  else if strIn "Sports" goal then { c with comp := c.comp + 1 }
  else if strIn "Weight Loss" goal then { c with cardio := c.cardio + 1 }
  else if strIn "Mobility" goal then
    { c with mob := c.mob + 2, comp := c.comp - 1, iso := c.iso - 1 }
  else c

def countsSum (c : Counts) : Nat := c.comp + c.iso + c.cardio + c.mob

/-- The placeholder catalogue returned by `_select_exercises_for_focus`
(the database query is not implemented in the source). -/
def sampleExercises : List CatalogExercise :=
  [⟨1, "Barbell Squat", "Compound", "Legs", "Barbell", "Intermediate", ""⟩,
   ⟨2, "Push-ups", "Compound", "Chest", "Bodyweight", "Beginner", ""⟩,
   ⟨3, "Bicep Curls", "Isolation", "Arms", "Dumbbells", "Beginner", ""⟩]

/-- `WorkoutPlanner._select_exercises_for_focus`: the quota sum determines
how much of the sample list is returned (`sample_exercises[:sum]`). -/
def selectExercisesForFocus (focus equipment limitations lvl goal : String) :
    List CatalogExercise :=
  sampleExercises.take (countsSum (adjustCounts goal (baseCounts lvl)))

/-! ### Schedule construction (`_create_workout_schedule`) -/

/-- `intensity_mapping[...]["sets"]` (default: the Beginner row). -/
def trainingSets (lvl : String) : Nat :=
  if lvl = "Beginner" then 3
  else if lvl = "Intermediate" then 4
  else if lvl = "Advanced" then 5
  else 3

/-- `intensity_mapping[...]["reps"]` (default: the Beginner row). -/
def trainingReps (lvl : String) : String :=
  if lvl = "Beginner" then "8-12"
  else if lvl = "Intermediate" then "8-10"
  else if lvl = "Advanced" then "6-12"
  else "8-12"

/-- `_determine_rest_period`. -/
def determineRestPeriod (ty goal : String) : String :=
  if ty = "Compound" then
    if strIn "Strength" goal || strIn "Body Building" goal then "2-3 minutes"
    else "60-90 seconds"
  else if ty = "Isolation" then
    if strIn "Body Building" goal then "60-90 seconds" else "30-60 seconds"
  else if ty = "Cardio" then "Minimal rest"
  else "30 seconds"

/-- `_determine_tempo`. -/
def determineTempo (ty goal : String) : String :=
  if strIn "Strength" goal then
    if ty = "Compound" then "2-0-2" else "2-0-1"
  else if strIn "Body Building" goal then "3-1-2"
  else if strIn "Sports" goal then
    if ty = "Compound" then "1-0-1" else "2-0-2"
  else "2-0-2"

/-- Python `int(bool)`. -/
def pyBoolNat (b : Bool) : Nat := if b then 1 else 0

/-- The per-exercise body of `_create_workout_schedule`: choose sets and
reps from the exercise type, level and goal, then package the config. -/
def configureExercise (lvl goal : String) (ex : CatalogExercise) : ExerciseConfig :=
  let sets :=
    if ex.ty = "Compound" then trainingSets lvl
    else if ex.ty = "Isolation" then max 3 (trainingSets lvl - 1)
    else if ex.ty = "Cardio" then 1
    else if lvl = "Beginner" then 2 else 3
  let reps :=
    if ex.ty = "Compound" then
      if strIn "Strength" goal then trainingReps lvl else "8-12"
    else if ex.ty = "Isolation" then
      if strIn "Body Building" goal then "10-15" else "12-15"
    else if ex.ty = "Cardio" then
      toString (15 + 5 * pyBoolNat (lvl = "Intermediate")
                   + 10 * pyBoolNat (lvl = "Advanced")) ++ " minutes"
    else "30-60 seconds"
  { id := ex.id, title := ex.title, sets := sets, reps := reps,
    rest := determineRestPeriod ex.ty goal,
    tempo := determineTempo ex.ty goal,
    notes := ex.instructions }

/-- `WorkoutPlanner._create_workout_schedule`. -/
def createWorkoutSchedule (split : List String)
    (equipment limitations lvl goal : String) : List DayWorkout :=
  split.map (fun focus =>
    ⟨focus, (selectExercisesForFocus focus equipment limitations lvl goal).map
        (configureExercise lvl goal)⟩)

/-! ### Progression (`_apply_progression`) -/

/-- `progression_patterns[...]["deload_frequency"]` (default: Beginner). -/
def deloadFrequency (lvl : String) : Nat :=
  if lvl = "Beginner" then 4
  else if lvl = "Intermediate" then 4
  else if lvl = "Advanced" then 3
  else 4

/-- The big compound lifts singled out on odd weeks. -/
def bigLifts : List String := ["squat", "deadlift", "bench press", "overhead press"]

/-- The deload note appended on deload weeks. -/
def deloadNote : String := " DELOAD WEEK: Reduce weights by 10-15% but maintain good form."

/-- The odd-week set bump: `exercise_copy["sets"] = min(sets + 1, 6)`,
guarded by `week > 2` and membership of the lowercased title in the
big-lift list. -/
def oddSetsBump (week : Nat) (e : ExerciseConfig) : ExerciseConfig :=
  if 2 < week ∧ strLower e.title ∈ bigLifts then
    { e with sets := min (e.sets + 1) 6 }
  else e

/-- The deload set reduction `exercise_copy["sets"] = max(2, int(sets * 0.6))`:
`int(sets * 0.6)` is modelled as `sets * 6 / 10` (natural-number floor
division); truncation of the float product agrees with exact truncation for
every set count this program produces (2–7). -/
def deloadSetsCut (e : ExerciseConfig) : ExerciseConfig :=
  { e with sets := max 2 (e.sets * 6 / 10) }

/-- The per-exercise body of `_apply_progression`'s week loop.  `none`
models the `ValueError` raised by `map(int, reps.split("-"))` on a rep
string that contains a dash but is not a pure numeric range. -/
def progressExercise (lvl : String) (week : Nat) (e : ExerciseConfig) :
    Option ExerciseConfig :=
  if week % deloadFrequency lvl ≠ 0 then
    if week % 2 = 1 then
      if hasDash e.reps then
        match parseRange e.reps with
        | some (mn, mx) =>
            some { oddSetsBump week e with
                   reps := toString (min (mn + 1) mx) ++ "-"
                        ++ toString (min (mx + 2) 20) }
        | none => none
      else some (oddSetsBump week e)
    else
      some { e with notes := e.notes ++ " Increase weight by "
          ++ toString (5 + 5 * pyBoolNat (lvl ≠ "Beginner"))
          ++ "% from previous week." }
  else
    if hasDash e.reps then
      match parseRange e.reps with
      | some (mn, _) =>
          some { deloadSetsCut e with
                 reps := toString mn ++ "-" ++ toString (mn + 2),
                 notes := e.notes ++ deloadNote }
      | none => none
    else some { deloadSetsCut e with notes := e.notes ++ deloadNote }

/-- One day of one week of the progressive plan. -/
def progressDay (lvl : String) (week : Nat) (d : DayWorkout) : Option DayWorkout :=
  (mapOpt (progressExercise lvl week) d.exercises).map (fun es => ⟨d.focus, es⟩)

/-- One week of the progressive plan. -/
def progressWeek (sched : List DayWorkout) (lvl : String) (week : Nat) :
    Option WeekPlan :=
  (mapOpt (progressDay lvl week) sched).map
    (fun days => ⟨week, week % deloadFrequency lvl == 0, days⟩)

/-- `WorkoutPlanner._apply_progression`: weeks 1 … duration.  (The source
also computes a `week_modifier` value on every iteration, but never reads
it; it is omitted here.) -/
def applyProgression (sched : List DayWorkout) (duration_weeks : Nat)
    (lvl : String) : Option (List WeekPlan) :=
  mapOpt (progressWeek sched lvl) (List.range' 1 duration_weeks)

/-! ## Lemmas about the split selector -/

theorem trainingSplits_length {goal : String} {n : Nat} {s : List String}
    (h : trainingSplits goal n = some s) : s.length = n := by
  unfold trainingSplits at h
  split_ifs at h <;> split at h <;>
    first
      | exact Option.noConfusion h
      | (obtain rfl := Option.some.inj h; rfl)

theorem defaultSplits_length {n : Nat} {s : List String}
    (h : defaultSplits n = some s) : s.length = n := by
  unfold defaultSplits at h
  split at h <;>
    first
      | exact Option.noConfusion h
      | (obtain rfl := Option.some.inj h; rfl)

/-- **C9** — For every goal and every workouts-per-week count `n` with
`1 ≤ n ≤ 7`, `_determine_training_split` returns a list of exactly `n`
focus labels (from the goal table, the count-only default table, or the
`["Full Body"] * n` fallback); for `n > 7` the input is first clamped
to 7, i.e. the result coincides with the result at 7. -/
theorem split_selector_returns_n_labels (goal : String) (n : Nat) :
    (1 ≤ n → n ≤ 7 → (determineTrainingSplit goal n).length = n) ∧
    (7 < n → determineTrainingSplit goal n = determineTrainingSplit goal 7) := by
  constructor
  · intro _ h7
    unfold determineTrainingSplit
    rw [if_neg (by omega)]
    rcases h1 : trainingSplits goal n with _ | s
    · rcases h2 : defaultSplits n with _ | s
      · simp only [h1, h2]
        simp
      · simp only [h1, h2]
        exact defaultSplits_length h2
    · simp only [h1]
      exact trainingSplits_length h1
  · intro h
    unfold determineTrainingSplit
    rw [if_pos (by omega), if_neg (by omega)]

/-- Witness for C9 at concrete inputs: `("Body Building", 3)` yields 3
labels, and an out-of-range count of 9 is treated as 7. -/
theorem split_selector_returns_n_labels_witness :
    (determineTrainingSplit "Body Building" 3).length = 3 ∧
    determineTrainingSplit "Weight Loss" 9 = determineTrainingSplit "Weight Loss" 7 :=
  ⟨(split_selector_returns_n_labels "Body Building" 3).1 (by decide) (by decide),
   (split_selector_returns_n_labels "Weight Loss" 9).2 (by decide)⟩

/-! ## Lemmas about the progression engine -/

theorem one_mod_deloadFrequency (lvl : String) : 1 % deloadFrequency lvl = 1 := by
  unfold deloadFrequency
  split_ifs <;> rfl

theorem splitDash_eq_single {l : List Char} (h : ∀ c ∈ l, c ≠ '-') :
    splitDash l = [l] := by
  induction l with
  | nil => rfl
  | cons c cs ih =>
    unfold splitDash
    rw [if_neg (h c (by simp))]
    rw [ih (fun c' hc' => h c' (by simp [hc']))]

theorem parseRange_eq_none_of_hasDash_false {s : String} (h : hasDash s = false) :
    parseRange s = none := by
  unfold hasDash at h
  have hchars : ∀ c ∈ s.data, c ≠ '-' := by
    intro c hc hcd
    rw [List.any_eq_false] at h
    exact absurd (by simp [hcd]) (h c hc)
  unfold parseRange
  rw [splitDash_eq_single hchars]
  simp only [List.map]
  cases hnd : natOfDigits s.data <;> simp [hnd]

/-- **C4** — If any exercise of the base schedule carries the Mobility rep
string `"30-60 seconds"` (the value `_create_workout_schedule` assigns to
Mobility/Flexibility exercises), then `_apply_progression` of any duration
≥ 1 does not return a plan: the rep-range parse `map(int, reps.split("-"))`
fails on `"60 seconds"` already in week 1 (the first odd week), so the
whole computation aborts with an error. -/
theorem mobility_reps_abort (sched : List DayWorkout) (dur : Nat) (lvl : String)
    (hdur : 1 ≤ dur) (d : DayWorkout) (hd : d ∈ sched)
    (e : ExerciseConfig) (he : e ∈ d.exercises)
    (hreps : e.reps = "30-60 seconds") :
    applyProgression sched dur lvl = none := by
  have hex : progressExercise lvl 1 e = none := by
    unfold progressExercise
    rw [one_mod_deloadFrequency]
    rw [if_pos (by decide), if_pos (by decide), hreps]
    rw [if_pos (by decide)]
    rw [show parseRange "30-60 seconds" = none from by decide]
  have hday : progressDay lvl 1 d = none := by
    unfold progressDay
    rw [mapOpt_none_of_mem he hex]
    rfl
  have hweek : progressWeek sched lvl 1 = none := by
    unfold progressWeek
    rw [mapOpt_none_of_mem hd hday]
    rfl
  exact mapOpt_none_of_mem (by rw [List.mem_range'_1]; omega) hweek

/-- Witness for C4: a one-day schedule holding a single Mobility exercise
aborts plan generation at duration 1. -/
theorem mobility_reps_abort_witness :
    applyProgression
      [⟨"Targeted Rehab",
        [⟨7, "Hip Mobility Flow", 2, "30-60 seconds", "30 seconds", "2-0-2", ""⟩]⟩]
      1 "Beginner" = none :=
  mobility_reps_abort _ 1 "Beginner" (by decide)
    ⟨"Targeted Rehab", [⟨7, "Hip Mobility Flow", 2, "30-60 seconds", "30 seconds", "2-0-2", ""⟩]⟩
    (by decide)
    ⟨7, "Hip Mobility Flow", 2, "30-60 seconds", "30 seconds", "2-0-2", ""⟩
    (by decide) rfl

theorem progressExercise_deload_sets {lvl : String} {week : Nat}
    {e e' : ExerciseConfig} (hw : week % deloadFrequency lvl = 0)
    (h : progressExercise lvl week e = some e') :
    e'.sets = max 2 (e.sets * 6 / 10) := by
  unfold progressExercise at h
  rw [if_neg (by omega)] at h
  by_cases hd : hasDash e.reps
  · rw [if_pos hd] at h
    rcases hp : parseRange e.reps with _ | ⟨mn, mx⟩ <;> rw [hp] at h
    · simp at h
    · obtain rfl := Option.some.inj h
      rfl
  · rw [if_neg hd] at h
    obtain rfl := Option.some.inj h
    rfl

theorem progressExercise_deload_reps {lvl : String} {week : Nat}
    {e e' : ExerciseConfig} (hw : week % deloadFrequency lvl = 0)
    (h : progressExercise lvl week e = some e') :
    ∀ mn mx, parseRange e.reps = some (mn, mx) →
      e'.reps = toString mn ++ "-" ++ toString (mn + 2) := by
  intro mn mx hp
  unfold progressExercise at h
  rw [if_neg (by omega)] at h
  by_cases hd : hasDash e.reps
  · rw [if_pos hd, hp] at h
    obtain rfl := Option.some.inj h
    rfl
  · rw [parseRange_eq_none_of_hasDash_false (by simpa using hd)] at hp
    cases hp

theorem progressWeek_shape {sched : List DayWorkout} {lvl : String} {week : Nat}
    {wp : WeekPlan} (h : progressWeek sched lvl week = some wp) :
    wp.week = week ∧ wp.is_deload = (week % deloadFrequency lvl == 0) ∧
      mapOpt (progressDay lvl week) sched = some wp.workouts := by
  unfold progressWeek at h
  rcases hmo : mapOpt (progressDay lvl week) sched with _ | days <;> rw [hmo] at h
  · simp at h
  · rw [Option.map_some'] at h
    obtain rfl := Option.some.inj h
    exact ⟨rfl, rfl, rfl⟩

/-- **C2 (amended)** — In every generated plan, week `w` is flagged as a
deload week exactly when `w mod deload_frequency == 0`, with the
deload frequency taken from the per-experience-level table
(Beginner 4, Intermediate 4, Advanced 3); on every deload week every
exercise's sets become `max(2, floor(sets * 0.6))` — the reduction factor
is the fixed constant `0.6`, for every experience level (the per-level
`deload_reduction` table entry is never read by the set computation) — and
every "min-max" rep range is rewritten to "min-(min+2)". -/
theorem deload_weeks_flag_and_mutation (lvl : String) (sched : List DayWorkout)
    (dur : Nat) (plan : List WeekPlan)
    (hp : applyProgression sched dur lvl = some plan) :
    (deloadFrequency "Beginner" = 4 ∧ deloadFrequency "Intermediate" = 4 ∧
      deloadFrequency "Advanced" = 3) ∧
    (∀ wp ∈ plan, wp.is_deload = (wp.week % deloadFrequency lvl == 0)) ∧
    (∀ (week : Nat) (e e' : ExerciseConfig), week % deloadFrequency lvl = 0 →
      progressExercise lvl week e = some e' →
      e'.sets = max 2 (e.sets * 6 / 10) ∧
      ∀ mn mx, parseRange e.reps = some (mn, mx) →
        e'.reps = toString mn ++ "-" ++ toString (mn + 2)) := by
  refine ⟨⟨rfl, rfl, rfl⟩, ?_, ?_⟩
  · intro wp hwp
    obtain ⟨w, _, hw_eq⟩ := mapOpt_mem hp wp hwp
    obtain ⟨h1, h2, _⟩ := progressWeek_shape hw_eq
    rw [h2, h1]
  · intro week e e' hw h
    exact ⟨progressExercise_deload_sets hw h, progressExercise_deload_reps hw h⟩

/-- A one-exercise, one-day base schedule (an Advanced isolation
configuration: 4 sets of "10-15") used to separate the code's deload set
computation from the one claim C2 states. -/
def c2Sched : List DayWorkout :=
  [⟨"Upper Body", [⟨3, "Bicep Curls", 4, "10-15", "60-90 seconds", "3-1-2", ""⟩]⟩]

/-- The three-week Advanced plan the code produces from `c2Sched`. -/
def c2Plan : List WeekPlan := (applyProgression c2Sched 3 "Advanced").getD []

/-- The deload set computation as claim C2 words it (a spec-side definition
for comparison only): `max(2, floor(sets * (1 - reduction)))` with the
per-level reduction table 0.4 / 0.3 / 0.25. -/
def claimedDeloadSets (lvl : String) (sets : Nat) : ℤ :=
  let reduction : ℚ :=
    if lvl = "Beginner" then 2/5
    else if lvl = "Intermediate" then 3/10
    else if lvl = "Advanced" then 1/4
    else 2/5
  max 2 ⌊(sets : ℚ) * (1 - reduction)⌋

/-- Counterexample to C2 as stated: for an Advanced plan, week 3 is a
deload week and the 4-set exercise is cut to `max(2, int(4*0.6)) = 2` sets,
while the claim's per-level formula `max(2, floor(4 * (1 - 0.25)))`
demands 3. -/
theorem deload_weeks_flag_and_mutation_counterexample :
    applyProgression c2Sched 3 "Advanced" = some
      [⟨1, false, [⟨"Upper Body",
          [⟨3, "Bicep Curls", 4, "11-17", "60-90 seconds", "3-1-2", ""⟩]⟩]⟩,
       ⟨2, false, [⟨"Upper Body",
          [⟨3, "Bicep Curls", 4, "10-15", "60-90 seconds", "3-1-2",
            " Increase weight by 10% from previous week."⟩]⟩]⟩,
       ⟨3, true, [⟨"Upper Body",
          [⟨3, "Bicep Curls", 2, "10-12", "60-90 seconds", "3-1-2",
            " DELOAD WEEK: Reduce weights by 10-15% but maintain good form."⟩]⟩]⟩] ∧
    claimedDeloadSets "Advanced" 4 = 3 := by
  constructor
  · decide
  · unfold claimedDeloadSets
    rw [if_neg (by decide), if_neg (by decide), if_pos rfl]
    norm_num

/-- Witness for the amended C2, instantiated on the concrete Advanced
three-week plan `c2Plan`. -/
theorem deload_weeks_flag_and_mutation_witness :
    (deloadFrequency "Beginner" = 4 ∧ deloadFrequency "Intermediate" = 4 ∧
      deloadFrequency "Advanced" = 3) ∧
    (∀ wp ∈ c2Plan, wp.is_deload = (wp.week % deloadFrequency "Advanced" == 0)) ∧
    (∀ (week : Nat) (e e' : ExerciseConfig), week % deloadFrequency "Advanced" = 0 →
      progressExercise "Advanced" week e = some e' →
      e'.sets = max 2 (e.sets * 6 / 10) ∧
      ∀ mn mx, parseRange e.reps = some (mn, mx) →
        e'.reps = toString mn ++ "-" ++ toString (mn + 2)) :=
  deload_weeks_flag_and_mutation "Advanced" c2Sched 3 c2Plan (by decide)

/-- **C3 (amended)** — In every regular (non-deload) odd-numbered week, the
*set* increment (+1, capped at 6) applies exactly to the named big-compound
lifts (squat, deadlift, bench press, overhead press) past week 2, every
other exercise's sets being unchanged; but the rep-range widening (min+1
capped at the old max, max+2 capped at 20) applies to *every* exercise
whose reps parse as a "min-max" range, not only to the big lifts.
Exercises without a dash in their reps keep reps and notes unchanged. -/
theorem odd_week_mutation (lvl : String) (week : Nat) (e e' : ExerciseConfig)
    (hw : week % deloadFrequency lvl ≠ 0) (hodd : week % 2 = 1)
    (h : progressExercise lvl week e = some e') :
    (e'.sets = if 2 < week ∧ strLower e.title ∈ bigLifts
               then min (e.sets + 1) 6 else e.sets) ∧
    (∀ mn mx, parseRange e.reps = some (mn, mx) →
      e'.reps = toString (min (mn + 1) mx) ++ "-" ++ toString (min (mx + 2) 20)) ∧
    (hasDash e.reps = false → e'.reps = e.reps ∧ e'.notes = e.notes) := by
  unfold progressExercise at h
  rw [if_pos hw, if_pos hodd] at h
  by_cases hd : hasDash e.reps
  · rw [if_pos hd] at h
    rcases hp : parseRange e.reps with _ | ⟨mn, mx⟩ <;> rw [hp] at h
    · simp at h
    · obtain rfl := Option.some.inj h
      refine ⟨?_, ?_, ?_⟩
      · by_cases hc : 2 < week ∧ strLower e.title ∈ bigLifts <;>
          simp [oddSetsBump, hc]
      · intro mn' mx' hp'
        have hpp := Option.some.inj hp'
        injection hpp with h1 h2
        subst h1
        subst h2
        rfl
      · intro hd'
        exact Bool.noConfusion (hd.symm.trans hd')
  · rw [if_neg hd] at h
    obtain rfl := Option.some.inj h
    have hbump : ∀ fld : ExerciseConfig → String,
        (∀ x : ExerciseConfig, ∀ s, fld { x with sets := s } = fld x) →
        fld (oddSetsBump week e) = fld e := by
      intro fld hfld
      unfold oddSetsBump
      split
      · exact hfld e _
      · rfl
    refine ⟨?_, ?_, fun _ => ⟨?_, ?_⟩⟩
    · by_cases hc : 2 < week ∧ strLower e.title ∈ bigLifts <;>
        simp [oddSetsBump, hc]
    · intro mn mx hp
      rw [parseRange_eq_none_of_hasDash_false (by simpa using hd)] at hp
      cases hp
    · exact hbump ExerciseConfig.reps (fun _ _ => rfl)
    · exact hbump ExerciseConfig.notes (fun _ _ => rfl)

/-- A Beginner base schedule holding only the non-big-lift isolation
exercise "Bicep Curls" (3 sets of "10-15"). -/
def c3Sched : List DayWorkout :=
  [⟨"Upper Body", [⟨3, "Bicep Curls", 3, "10-15", "60-90 seconds", "3-1-2", ""⟩]⟩]

/-- Counterexample to C3 as stated: "Bicep Curls" is not one of the named
big-compound lifts, yet in regular odd week 3 of a Beginner plan its rep
range is widened from "10-15" to "11-17" — the claim's "every other
exercise's sets and reps are left unchanged" fails for reps. -/
theorem odd_week_mutation_counterexample :
    strLower "Bicep Curls" ∉ bigLifts ∧
    applyProgression c3Sched 3 "Beginner" = some
      [⟨1, false, [⟨"Upper Body",
          [⟨3, "Bicep Curls", 3, "11-17", "60-90 seconds", "3-1-2", ""⟩]⟩]⟩,
       ⟨2, false, [⟨"Upper Body",
          [⟨3, "Bicep Curls", 3, "10-15", "60-90 seconds", "3-1-2",
            " Increase weight by 5% from previous week."⟩]⟩]⟩,
       ⟨3, false, [⟨"Upper Body",
          [⟨3, "Bicep Curls", 3, "11-17", "60-90 seconds", "3-1-2", ""⟩]⟩]⟩] ∧
    ("11-17" : String) ≠ "10-15" := by
  refine ⟨by decide, by decide, by decide⟩

/-- The exercise configuration week 3 produces from `c3Sched`'s single
exercise. -/
def c3Out : ExerciseConfig :=
  ⟨3, "Bicep Curls", 3, "11-17", "60-90 seconds", "3-1-2", ""⟩

/-- Witness for the amended C3 at week 3 of a Beginner plan on "Bicep
Curls". -/
theorem odd_week_mutation_witness :
    ((c3Out.sets = if 2 < 3 ∧ strLower (ExerciseConfig.title ⟨3, "Bicep Curls", 3, "10-15", "60-90 seconds", "3-1-2", ""⟩) ∈ bigLifts
               then min (ExerciseConfig.sets ⟨3, "Bicep Curls", 3, "10-15", "60-90 seconds", "3-1-2", ""⟩ + 1) 6
               else ExerciseConfig.sets ⟨3, "Bicep Curls", 3, "10-15", "60-90 seconds", "3-1-2", ""⟩) ∧
    (∀ mn mx, parseRange (ExerciseConfig.reps ⟨3, "Bicep Curls", 3, "10-15", "60-90 seconds", "3-1-2", ""⟩) = some (mn, mx) →
      c3Out.reps = toString (min (mn + 1) mx) ++ "-" ++ toString (min (mx + 2) 20)) ∧
    (hasDash (ExerciseConfig.reps ⟨3, "Bicep Curls", 3, "10-15", "60-90 seconds", "3-1-2", ""⟩) = false →
      c3Out.reps = ExerciseConfig.reps ⟨3, "Bicep Curls", 3, "10-15", "60-90 seconds", "3-1-2", ""⟩ ∧
      c3Out.notes = ExerciseConfig.notes ⟨3, "Bicep Curls", 3, "10-15", "60-90 seconds", "3-1-2", ""⟩)) :=
  odd_week_mutation "Beginner" 3 ⟨3, "Bicep Curls", 3, "10-15", "60-90 seconds", "3-1-2", ""⟩
    c3Out (by decide) (by decide) (by decide)

/-- The placeholder exercise selection always returns the whole sample
catalogue: every quota sum is at least 6 ≥ 3. -/
theorem select_eq_all (focus equipment limitations lvl goal : String) :
    selectExercisesForFocus focus equipment limitations lvl goal = sampleExercises := by
  unfold selectExercisesForFocus
  apply List.take_of_length_le
  unfold countsSum adjustCounts baseCounts
  split_ifs <;> decide

/-- Every rep string `_create_workout_schedule` can attach to a Compound or
Isolation exercise. -/
theorem configure_reps_mem (lvl goal : String) (ex : CatalogExercise)
    (hex : ex ∈ sampleExercises) :
    (configureExercise lvl goal ex).reps
      ∈ (["8-12", "8-10", "6-12", "10-15", "12-15"] : List String) := by
  fin_cases hex <;>
    · unfold configureExercise
      dsimp only
      split_ifs <;> (try (unfold trainingReps; split_ifs)) <;> simp_all

theorem reps_gap_of_mem (s : String)
    (hs : s ∈ (["8-12", "8-10", "6-12", "10-15", "12-15"] : List String)) :
    ∀ mn mx, parseRange s = some (mn, mx) → mn + 2 ≤ mx := by
  have hb : ((parseRange s).map (fun p => decide (p.1 + 2 ≤ p.2))).getD true = true := by
    fin_cases hs <;> decide
  intro mn mx hpr
  rw [hpr] at hb
  simpa using hb

/-- In every schedule `_create_workout_schedule` builds, a rep range that
parses leaves a gap of at least 2 between its minimum and maximum. -/
theorem schedule_range_gap {split : List String}
    {equipment limitations lvl goal : String} {d₀ : DayWorkout}
    (hd₀ : d₀ ∈ createWorkoutSchedule split equipment limitations lvl goal)
    {e₀ : ExerciseConfig} (he₀ : e₀ ∈ d₀.exercises) :
    ∀ mn mx, parseRange e₀.reps = some (mn, mx) → mn + 2 ≤ mx := by
  unfold createWorkoutSchedule at hd₀
  rw [List.mem_map] at hd₀
  obtain ⟨focus, -, rfl⟩ := hd₀
  dsimp only at he₀
  rw [select_eq_all, List.mem_map] at he₀
  obtain ⟨ex, hex, rfl⟩ := he₀
  exact reps_gap_of_mem _ (configure_reps_mem lvl goal ex hex)

/-- **C5** — On every deload week of every generated plan, each exercise
has at least 2 sets after the reduction; and each deload exercise arises
from a base-schedule exercise whose parsed "min-max" rep range it rewrites
to "min-(min+2)", where `min+2` never exceeds the base range's max. -/
theorem deload_invariants (split : List String)
    (equipment limitations lvl goal : String) (dur : Nat) (plan : List WeekPlan)
    (hp : applyProgression
        (createWorkoutSchedule split equipment limitations lvl goal) dur lvl
      = some plan) :
    ∀ wp ∈ plan, wp.is_deload = true →
      ∀ d ∈ wp.workouts, ∀ e' ∈ d.exercises,
        2 ≤ e'.sets ∧
        ∃ e₀, (∃ d₀ ∈ createWorkoutSchedule split equipment limitations lvl goal,
                e₀ ∈ d₀.exercises) ∧
          progressExercise lvl wp.week e₀ = some e' ∧
          ∀ mn mx, parseRange e₀.reps = some (mn, mx) →
            e'.reps = toString mn ++ "-" ++ toString (mn + 2) ∧ mn + 2 ≤ mx := by
  intro wp hwp hde d hd e' he'
  obtain ⟨w, -, hweq⟩ := mapOpt_mem hp wp hwp
  obtain ⟨hw1, hw2, hw3⟩ := progressWeek_shape hweq
  have hwz : w % deloadFrequency lvl = 0 := by
    rw [hw2] at hde
    simpa using hde
  obtain ⟨d₀, hd₀, hdeq⟩ := mapOpt_mem hw3 d hd
  unfold progressDay at hdeq
  rcases hmo : mapOpt (progressExercise lvl w) d₀.exercises with _ | es <;>
    rw [hmo] at hdeq
  · simp at hdeq
  · rw [Option.map_some'] at hdeq
    obtain rfl := Option.some.inj hdeq
    obtain ⟨e₀, he₀, heeq⟩ := mapOpt_mem hmo e' he'
    constructor
    · rw [progressExercise_deload_sets hwz heeq]
      exact le_max_left 2 _
    · refine ⟨e₀, ⟨d₀, hd₀, he₀⟩, hw1 ▸ heeq, ?_⟩
      intro mn mx hpr
      exact ⟨progressExercise_deload_reps hwz heeq mn mx hpr,
             schedule_range_gap hd₀ he₀ mn mx hpr⟩

/-- The four-week Beginner Body-Building plan generated from a one-day
split (its week 4 is a deload week). -/
def c5Plan : List WeekPlan :=
  (applyProgression
    (createWorkoutSchedule ["Upper Body"] "Full Gym" "None" "Beginner" "Body Building")
    4 "Beginner").getD []

/-- The deload (week 4) configuration of the Barbell Squat in `c5Plan`. -/
def c5Squat : ExerciseConfig :=
  ⟨1, "Barbell Squat", 2, "8-10", "2-3 minutes", "3-1-2",
   " DELOAD WEEK: Reduce weights by 10-15% but maintain good form."⟩

/-- The single day of week 4 of `c5Plan`. -/
def c5Day : DayWorkout :=
  ⟨"Upper Body",
   [c5Squat,
    ⟨2, "Push-ups", 2, "8-10", "2-3 minutes", "3-1-2",
     " DELOAD WEEK: Reduce weights by 10-15% but maintain good form."⟩,
    ⟨3, "Bicep Curls", 2, "10-12", "60-90 seconds", "3-1-2",
     " DELOAD WEEK: Reduce weights by 10-15% but maintain good form."⟩]⟩

/-- Week 4 of `c5Plan`, the deload week. -/
def c5Week4 : WeekPlan := ⟨4, true, [c5Day]⟩

/-- Witness for C5 at week 4 of the concrete plan `c5Plan`, on the squat. -/
theorem deload_invariants_witness :
    2 ≤ c5Squat.sets ∧
    ∃ e₀, (∃ d₀ ∈ createWorkoutSchedule ["Upper Body"] "Full Gym" "None"
              "Beginner" "Body Building", e₀ ∈ d₀.exercises) ∧
      progressExercise "Beginner" 4 e₀ = some c5Squat ∧
      ∀ mn mx, parseRange e₀.reps = some (mn, mx) →
        c5Squat.reps = toString mn ++ "-" ++ toString (mn + 2) ∧ mn + 2 ≤ mx :=
  deload_invariants ["Upper Body"] "Full Gym" "None" "Beginner" "Body Building"
    4 c5Plan (by decide) c5Week4 (by decide) (by decide)
    c5Day (by decide) c5Squat (by decide)

/-! ## Daily recommender (`src/Engine.py`, `WorkoutRecommender`) -/

/-- A `plan_workouts` row as far as `get_daily_recommendation` reads it:
its primary key, the exercise it references, and the day slot (1–7). -/
structure Workout where
  id : Nat
  exercise_id : Nat
  day : Nat
  deriving Repr, DecidableEq, BEq

/-- The CPython semantics of
`for workout in workouts: ... workouts.remove(workout)`: the loop keeps an
index `i`, reads `l[i]`, runs the body (which may `remove` the first
occurrence equal to `l[i]`, shifting later elements left), then continues
at `i+1` of the *mutated* list.  `fuel` only bounds the recursion: every
step decreases `l.length - i` by at least 1, so the initial fuel
`l.length` is never exhausted before `i ≥ l.length`. -/
def removeLoopAux (logged : Nat → Bool) : Nat → List Workout → Nat → List Workout
  | 0, l, _ => l
  | fuel + 1, l, i =>
    if h : i < l.length then
      let x := l.get ⟨i, h⟩
      if logged x.id then removeLoopAux logged fuel (l.erase x) (i + 1)
      else removeLoopAux logged fuel l (i + 1)
    else l

/-- The "remove already-completed workouts" loop of
`get_daily_recommendation` (Engine.py lines 95–105). -/
def removeCompleted (logged : Nat → Bool) (l : List Workout) : List Workout :=
  removeLoopAux logged l.length l 0

/-- The branch `_generate_bonus_workout` takes, keyed by the plan goal
(the workout lists it fills in come from the database and are irrelevant
to the claims; the title identifies the branch). -/
def bonusTitle (goal : String) : String :=
  if strIn "Body Building" goal then "Specialization"
  else if strIn "Weight Loss" goal then "Calorie Burner"
  else "Core & Mobility"

/-- The four structurally distinct responses `get_daily_recommendation`
can produce once a plan with a known start date is resolved. -/
inductive Recommendation where
  | recovery
  | alternative (day : Nat) (workouts : List Workout)
  | completed (bonus : String)
  | scheduled (workouts : List Workout)
  deriving Repr, DecidableEq

/-- The tail of `get_daily_recommendation` after the no-workouts-today
block: drop the workouts already logged today (buggy in-place removal),
then either the `completed` response with a bonus workout, or the
`scheduled` response with the remaining workouts joined against the
`exercises` table (rows whose exercise is missing are dropped). -/
def afterCompletionCheck (goal : String) (loggedToday : Nat → Bool)
    (exTable : Nat → Bool) (todays : List Workout) : Recommendation :=
  let remaining := removeCompleted loggedToday todays
  if remaining.isEmpty then .completed (bonusTitle goal)
  else .scheduled (remaining.filter (fun w => exTable w.exercise_id))

/-- `WorkoutRecommender.get_daily_recommendation`, for a resolved plan and
computed current week.  Inputs model the database reads:
`weekWorkouts` = the `plan_workouts` rows of the current week,
`weekday` = today's 1–7 weekday, `recentCount` = number of `workout_logs`
rows in the last 3 days (`_needs_recovery` compares it with 5),
`loggedToday id` = whether a log dated today exists for workout `id`,
`pick` = the oracle resolving `ORDER BY RANDOM() LIMIT 1`, and
`exTable` = which exercise ids resolve in the `exercises` table.
When the week holds no workout at all, the alternative query returns no
row and control falls through to the completion check. -/
def getDailyRecommendation (goal : String) (weekday : Nat)
    (weekWorkouts : List Workout) (recentCount : Nat)
    (loggedToday : Nat → Bool) (pick : Nat) (exTable : Nat → Bool) :
    Recommendation :=
  let todays := weekWorkouts.filter (fun w => w.day == weekday)
  if todays.isEmpty then
    if 5 < recentCount then .recovery
    else
      match weekWorkouts[pick % weekWorkouts.length]? with
      | some alt =>
          .alternative alt.day (weekWorkouts.filter (fun w => w.day == alt.day))
      | none => afterCompletionCheck goal loggedToday exTable todays
  else afterCompletionCheck goal loggedToday exTable todays

/-- **C1** — the claim fails on the code (`workouts.remove(workout)` while
iterating skips the element after each removal): with two workouts
scheduled today and both already logged today, the loop removes only the
first; the response has type `scheduled` — not `completed` — and it still
contains the already-logged second workout. -/
theorem completed_detection_skips_elements :
    getDailyRecommendation "Body Building" 1
        [⟨1, 101, 1⟩, ⟨2, 102, 1⟩] 0 (fun i => i == 1 || i == 2) 0 (fun _ => true)
      = .scheduled [⟨2, 102, 1⟩] ∧
    (fun i : Nat => i == 1 || i == 2) 2 = true := by
  refine ⟨by decide, by decide⟩

/-- **C8 (amended)** — with no workout scheduled today: more than 5
sessions logged in the last 3 days yields the recovery response; at most 5
sessions *and a non-empty current week* yields an alternative-day response
naming a different weekday of the same week; at most 5 sessions with an
entirely empty week falls through to a completed-type response instead. -/
theorem no_workout_today_fallback (goal : String) (weekday : Nat)
    (weekWorkouts : List Workout) (recentCount : Nat)
    (loggedToday : Nat → Bool) (pick : Nat) (exTable : Nat → Bool)
    (hnone : weekWorkouts.filter (fun w => w.day == weekday) = []) :
    (5 < recentCount →
      getDailyRecommendation goal weekday weekWorkouts recentCount
        loggedToday pick exTable = .recovery) ∧
    (recentCount ≤ 5 → weekWorkouts ≠ [] →
      ∃ d ws, getDailyRecommendation goal weekday weekWorkouts recentCount
          loggedToday pick exTable = .alternative d ws ∧ d ≠ weekday) ∧
    (recentCount ≤ 5 → weekWorkouts = [] →
      getDailyRecommendation goal weekday weekWorkouts recentCount
        loggedToday pick exTable = .completed (bonusTitle goal)) := by
  refine ⟨?_, ?_, ?_⟩
  · intro hrc
    unfold getDailyRecommendation
    rw [hnone]
    simp only [List.isEmpty_nil, if_true]
    rw [if_pos hrc]
  · intro hrc hne
    have hlen : 0 < weekWorkouts.length := List.length_pos.mpr hne
    have hlt : pick % weekWorkouts.length < weekWorkouts.length :=
      Nat.mod_lt _ hlen
    refine ⟨(weekWorkouts.get ⟨pick % weekWorkouts.length, hlt⟩).day,
      weekWorkouts.filter
        (fun w => w.day == (weekWorkouts.get ⟨pick % weekWorkouts.length, hlt⟩).day),
      ?_, ?_⟩
    · unfold getDailyRecommendation
      rw [hnone]
      simp only [List.isEmpty_nil, if_true]
      rw [if_neg (by omega)]
      rw [List.getElem?_eq_getElem hlt]
      rfl
    · intro hday
      have hmem : weekWorkouts.get ⟨pick % weekWorkouts.length, hlt⟩ ∈ weekWorkouts :=
        weekWorkouts.get_mem _ _
      have := List.filter_eq_nil_iff.mp hnone _ hmem
      simp only [hday] at this
      exact this (by simp)
  · intro hrc hempty
    subst hempty
    unfold getDailyRecommendation
    simp only [List.filter_nil, List.isEmpty_nil, if_true]
    rw [if_neg (by omega)]
    rfl

/-- Counterexample to C8 as stated: a plan week with no workouts at all
and 0 (≤ 5) recent sessions produces a completed-type response, not the
alternative-day response the claim demands. -/
theorem no_workout_today_fallback_counterexample :
    getDailyRecommendation "Sports and Athletics" 1 [] 0
        (fun _ => false) 0 (fun _ => true)
      = .completed "Core & Mobility" := by decide

/-- Witness for the amended C8: week = `[⟨1, 101, 2⟩]` (a Tuesday workout),
today = Monday, 0 recent sessions. -/
theorem no_workout_today_fallback_witness :
    (5 < 0 →
      getDailyRecommendation "Body Building" 1 [⟨1, 101, 2⟩] 0
        (fun _ => false) 0 (fun _ => true) = .recovery) ∧
    (0 ≤ 5 → ([⟨1, 101, 2⟩] : List Workout) ≠ [] →
      ∃ d ws, getDailyRecommendation "Body Building" 1 [⟨1, 101, 2⟩] 0
          (fun _ => false) 0 (fun _ => true) = .alternative d ws ∧ d ≠ 1) ∧
    (0 ≤ 5 → ([⟨1, 101, 2⟩] : List Workout) = [] →
      getDailyRecommendation "Body Building" 1 [⟨1, 101, 2⟩] 0
        (fun _ => false) 0 (fun _ => true) = .completed (bonusTitle "Body Building")) :=
  no_workout_today_fallback "Body Building" 1 [⟨1, 101, 2⟩] 0
    (fun _ => false) 0 (fun _ => true) (by decide)

/-! ## Progress tracker (`src/progresstracker.py`, `ProgressTracker`) -/

/-- `ProgressTracker.calculate_one_rep_max` (Brzycki formula, with the
two special cases of the source). -/
def calcOneRepMax (weight reps : ℚ) : ℚ :=
  if reps = 1 then weight
  else if 36 < reps then weight * 2
  else weight * (36 / (37 - reps))

/-- The y-series as `np.polyfit` reads it: position `i` of the list
(0 outside — never read inside the functions below). -/
def seriesY (ys : List ℚ) (i : Nat) : ℚ := ys.getD i 0

/-- Numerator of the least-squares slope of `ys` against x = 0..n-1:
`n * Σ x_i y_i - (Σ x_i)(Σ y_i)`. -/
def slopeNum (ys : List ℚ) : ℚ :=
  (ys.length : ℚ) * (∑ i in Finset.range ys.length, (i : ℚ) * seriesY ys i)
    - (∑ i in Finset.range ys.length, (i : ℚ))
      * ∑ i in Finset.range ys.length, seriesY ys i

/-- Denominator of the least-squares slope: `n * Σ x_i² - (Σ x_i)²`. -/
def slopeDen (ys : List ℚ) : ℚ :=
  (ys.length : ℚ) * (∑ i in Finset.range ys.length, (i : ℚ) * (i : ℚ))
    - (∑ i in Finset.range ys.length, (i : ℚ))
      * ∑ i in Finset.range ys.length, (i : ℚ)

/-- The degree-1 coefficient `slope, _ = np.polyfit(x, y, 1)` for
`x = np.arange(len(series))`: the closed-form least-squares slope. -/
def polyfitSlope (ys : List ℚ) : ℚ := slopeNum ys / slopeDen ys

/-- `ProgressTracker._calculate_trend`: 0 for series shorter than 2,
otherwise the least-squares slope normalized to percent of the first
value, or 0 when the first value is not positive. -/
def calculateTrend (ys : List ℚ) : ℚ :=
  if ys.length < 2 then 0
  else if 0 < ys.getD 0 0 then polyfitSlope ys / ys.getD 0 0 * 100
  else 0

/-- A joined `workout_logs` row as `analyze_workout_history` consumes it.
The date strings of the source serve only as grouping keys and are
modelled as natural-number keys. -/
structure LogRow where
  date : Nat
  sets : ℚ
  reps : ℚ
  weight : ℚ
  deriving Repr, DecidableEq

/-- The distinct dates of the log rows in first-appearance order (the rows
arrive sorted by date, so this is the `groupby('date')` key order). -/
def datesInOrder (logs : List LogRow) : List Nat :=
  logs.foldl (fun acc r => if acc.contains r.date then acc else acc ++ [r.date]) []

/-- Maximum of a non-empty list (pandas `max` aggregation); 0 on []. -/
def listMax : List ℚ → ℚ
  | [] => 0
  | x :: xs => xs.foldl max x

/-- The daily `one_rep_max: max` aggregate for date `d`. -/
def dailyMaxOrm (logs : List LogRow) (d : Nat) : ℚ :=
  listMax ((logs.filter (fun r => r.date == d)).map
    (fun r => calcOneRepMax r.weight r.reps))

/-- The daily `volume: sum` aggregate (`sets * reps * weight`) for `d`. -/
def dailyVolume (logs : List LogRow) (d : Nat) : ℚ :=
  ((logs.filter (fun r => r.date == d)).map
    (fun r => r.sets * r.reps * r.weight)).sum

/-- The daily 1RM series `daily_stats['one_rep_max']`. -/
def ormSeries (logs : List LogRow) : List ℚ :=
  (datesInOrder logs).map (dailyMaxOrm logs)

/-- The daily volume series `daily_stats['volume']`. -/
def volSeries (logs : List LogRow) : List ℚ :=
  (datesInOrder logs).map (dailyVolume logs)

/-- `strength_trend = self._calculate_trend(daily_stats['one_rep_max'])`. -/
def strengthTrendOf (logs : List LogRow) : ℚ := calculateTrend (ormSeries logs)

/-- `volume_trend = self._calculate_trend(daily_stats['volume'])`. -/
def volumeTrendOf (logs : List LogRow) : ℚ := calculateTrend (volSeries logs)

/-- Python `int()` applied to a (modelled-as-exact) float: truncation
toward zero. -/
def truncQ (q : ℚ) : ℤ := if q < 0 then -⌊-q⌋ else ⌊q⌋

/-- `_save_progression_data`'s rating:
`min(5, max(-5, int(strength_trend / 5)))`. -/
def clampRating (t : ℚ) : ℤ := min 5 (max (-5) (truncQ (t / 5)))

/-- The row `_save_progression_data` inserts into `progression_tracking`. -/
structure ProgressionRecord where
  user_id : Nat
  exercise_id : Nat
  one_rep_max : ℚ
  volume_total : ℚ
  progress_rating : ℤ
  deriving Repr, DecidableEq

/-- The `progression` dict of `analyze_workout_history`. -/
structure ProgressionMetrics where
  strength_change_pct : ℚ
  volume_change_pct : ℚ
  strength_trend : ℚ
  volume_trend : ℚ
  consistency : ℚ
  deriving Repr, DecidableEq

/-- The two result shapes `analyze_workout_history` returns: the
"No data" dictionary, or the success dictionary (only the fields the
claims concern are carried). -/
inductive AnalysisResult where
  | noData (message : String)
  | success (workout_count : Nat) (current_1rm best_1rm : ℚ)
      (metrics : ProgressionMetrics)
  deriving Repr, DecidableEq

/-- `ProgressTracker.analyze_workout_history` on the already-fetched log
rows of the lookback window, paired with the Progression Record the call
persists (`none` when nothing is written).  The empty-logs check precedes
every other computation, exactly as in the source. -/
def analyzeWorkoutHistory (user_id exercise_id timeframe_days : Nat)
    (logs : List LogRow) : AnalysisResult × Option ProgressionRecord :=
  if logs = [] then
    (.noData "No workout history found for this exercise", none)
  else
    let orm := ormSeries logs
    let vol := volSeries logs
    let current := orm.getLast?.getD 0
    let currentVol := vol.getLast?.getD 0
    let metrics : ProgressionMetrics :=
      { strength_change_pct :=
          if 0 < orm.getD 0 0 then (current / orm.getD 0 0 - 1) * 100 else 0,
        volume_change_pct :=
          if 0 < vol.getD 0 0 then (currentVol / vol.getD 0 0 - 1) * 100 else 0,
        strength_trend := strengthTrendOf logs,
        volume_trend := volumeTrendOf logs,
        consistency := (orm.length : ℚ) / ((timeframe_days : ℚ) / 7) }
    (.success orm.length current (listMax orm) metrics,
     some ⟨user_id, exercise_id, current, currentVol,
           clampRating (strengthTrendOf logs)⟩)

/-- **C10** — When no workout log entries fall inside the lookback window,
`analyze_workout_history` returns the structured "No data" result, raises
no exception, performs no further computation and writes no Progression
Record. -/
theorem analyze_no_logs_returns_no_data (uid eid tf : Nat) :
    analyzeWorkoutHistory uid eid tf [] =
      (.noData "No workout history found for this exercise", none) := rfl

/-- **C6 (amended)** — Every Progression Record the analysis persists
carries `progress_rating = clamp(trunc(strength_trend / 5), -5, 5)`, where
`trunc` is Python `int()`'s truncation toward zero (not rounding to
nearest); in particular the rating always lies in [-5, 5]. -/
theorem progress_rating_truncated_clamped (uid eid tf : Nat)
    (logs : List LogRow) (rec : ProgressionRecord)
    (h : (analyzeWorkoutHistory uid eid tf logs).2 = some rec) :
    rec.progress_rating = min 5 (max (-5) (truncQ (strengthTrendOf logs / 5))) ∧
    -5 ≤ rec.progress_rating ∧ rec.progress_rating ≤ 5 := by
  unfold analyzeWorkoutHistory at h
  by_cases hl : logs = []
  · rw [if_pos hl] at h
    simp at h
  · rw [if_neg hl] at h
    obtain rfl := Option.some.inj h
    refine ⟨rfl, ?_, ?_⟩
    · exact le_min (by norm_num) (le_max_left _ _)
    · exact min_le_left _ _

/-- Two log rows (one per date, 1-rep sets) whose daily 1RM series is
[5, 5.45], hence `strength_trend = 9`. -/
def c6Logs : List LogRow :=
  [⟨1, 1, 1, 5⟩, ⟨2, 1, 1, 109/20⟩]

theorem c6_analyze_eval :
    (analyzeWorkoutHistory 1 2 90 c6Logs).2
      = some ⟨1, 2, 109/20, 109/20, clampRating (strengthTrendOf c6Logs)⟩ := by
  have horm : ormSeries c6Logs = [5, 109/20] := by
    norm_num [ormSeries, datesInOrder, dailyMaxOrm, listMax, calcOneRepMax, c6Logs]
  have hvol : volSeries c6Logs = [5, 109/20] := by
    norm_num [volSeries, datesInOrder, dailyVolume, c6Logs]
  unfold analyzeWorkoutHistory
  rw [if_neg (by simp [c6Logs])]
  simp only [horm, hvol]
  norm_num

/-- Counterexample to C6 as stated: at `strength_trend = 9` the code
stores `int(9/5) = 1` (truncation), while the claim's
`clamp(round(9/5), -5, 5)` is 2. -/
theorem progress_rating_truncated_clamped_counterexample :
    strengthTrendOf c6Logs = 9 ∧
    (analyzeWorkoutHistory 1 2 90 c6Logs).2.map ProgressionRecord.progress_rating
      = some 1 ∧
    min 5 (max (-5) (round ((9 : ℚ) / 5))) = 2 := by
  have htrend : strengthTrendOf c6Logs = 9 := by
    norm_num [strengthTrendOf, ormSeries, datesInOrder, dailyMaxOrm, listMax,
      calcOneRepMax, calculateTrend, polyfitSlope, slopeNum, slopeDen, seriesY,
      c6Logs, Finset.sum_range_succ, List.getD]
  have hclamp : clampRating 9 = 1 := by
    have ht : truncQ ((9 : ℚ) / 5) = 1 := by unfold truncQ; norm_num
    unfold clampRating
    rw [ht]
    decide
  refine ⟨htrend, ?_, ?_⟩
  · rw [c6_analyze_eval, htrend]
    simp [hclamp]
  · rw [round_eq]
    norm_num

/-- Witness for the amended C6 on the concrete logs `c6Logs`. -/
theorem progress_rating_truncated_clamped_witness :
    ProgressionRecord.progress_rating
        ⟨1, 2, 109/20, 109/20, clampRating (strengthTrendOf c6Logs)⟩
      = min 5 (max (-5) (truncQ (strengthTrendOf c6Logs / 5))) ∧
    -5 ≤ ProgressionRecord.progress_rating
        ⟨1, 2, 109/20, 109/20, clampRating (strengthTrendOf c6Logs)⟩ ∧
    ProgressionRecord.progress_rating
        ⟨1, 2, 109/20, 109/20, clampRating (strengthTrendOf c6Logs)⟩ ≤ 5 :=
  progress_rating_truncated_clamped 1 2 90 c6Logs
    ⟨1, 2, 109/20, 109/20, clampRating (strengthTrendOf c6Logs)⟩
    c6_analyze_eval

/-! ### The sign of the least-squares slope -/

/-- Double-sum expansion of the covariance-style numerator:
`Σ_{i,j} (f i - f j)(g i - g j) = 2 (n Σ f g - Σf Σg)`. -/
theorem cross_sum_identity (n : Nat) (f g : Nat → ℚ) :
    ∑ p in Finset.range n ×ˢ Finset.range n, (f p.1 - f p.2) * (g p.1 - g p.2)
      = 2 * ((n : ℚ) * ∑ i in Finset.range n, f i * g i
          - (∑ i in Finset.range n, f i) * ∑ i in Finset.range n, g i) := by
  rw [Finset.sum_product]
  have expand : ∀ i j : Nat, (f i - f j) * (g i - g j)
      = f i * g i - f i * g j - f j * g i + f j * g j := by intros; ring
  simp only [expand]
  simp only [Finset.sum_add_distrib, Finset.sum_sub_distrib, Finset.sum_const,
    Finset.card_range, ← Finset.mul_sum, ← Finset.sum_mul, nsmul_eq_mul]
  ring

/-- If `f` and `g` both strictly increase on `0..n-1` and `n ≥ 2`, the
double sum of `(f i - f j)(g i - g j)` is strictly positive: each term is
nonnegative (the two factors share their sign) and the term at `(1, 0)` is
positive. -/
theorem cross_sum_pos {n : Nat} (hn : 2 ≤ n) (f g : Nat → ℚ)
    (hf : ∀ i j, i < j → j < n → f i < f j)
    (hg : ∀ i j, i < j → j < n → g i < g j) :
    0 < ∑ p in Finset.range n ×ˢ Finset.range n,
          (f p.1 - f p.2) * (g p.1 - g p.2) := by
  apply Finset.sum_pos'
  · intro p hp
    rw [Finset.mem_product, Finset.mem_range, Finset.mem_range] at hp
    obtain ⟨h1, h2⟩ := hp
    rcases lt_trichotomy p.1 p.2 with hlt | heq | hgt
    · have hfp := hf p.1 p.2 hlt h2
      have hgp := hg p.1 p.2 hlt h2
      have := mul_pos_of_neg_of_neg (a := f p.1 - f p.2) (b := g p.1 - g p.2)
        (by linarith) (by linarith)
      linarith
    · simp [heq]
    · have hfp := hf p.2 p.1 hgt h1
      have hgp := hg p.2 p.1 hgt h1
      have := mul_pos (a := f p.1 - f p.2) (b := g p.1 - g p.2)
        (by linarith) (by linarith)
      linarith
  · refine ⟨(1, 0), ?_, ?_⟩
    · rw [Finset.mem_product]
      constructor <;> rw [Finset.mem_range] <;> omega
    · have h1 := hf 0 1 (by omega) (by omega)
      have h2 := hg 0 1 (by omega) (by omega)
      exact mul_pos (by simpa using sub_pos.mpr h1) (by simpa using sub_pos.mpr h2)

theorem slopeDen_pos {ys : List ℚ} (hlen : 2 ≤ ys.length) : 0 < slopeDen ys := by
  have hid := cross_sum_identity ys.length (fun i => (i : ℚ)) (fun i => (i : ℚ))
  have hpos := cross_sum_pos hlen (fun i => (i : ℚ)) (fun i => (i : ℚ))
    (fun i j hij _ => by show (i : ℚ) < j; exact_mod_cast hij)
    (fun i j hij _ => by show (i : ℚ) < j; exact_mod_cast hij)
  rw [hid] at hpos
  unfold slopeDen
  linarith

theorem slopeNum_pos {ys : List ℚ} (hlen : 2 ≤ ys.length)
    (hmono : ∀ i j, i < j → j < ys.length → ys.getD i 0 < ys.getD j 0) :
    0 < slopeNum ys := by
  have hid := cross_sum_identity ys.length (fun i => (i : ℚ)) (seriesY ys)
  have hpos := cross_sum_pos hlen (fun i => (i : ℚ)) (seriesY ys)
    (fun i j hij _ => by show (i : ℚ) < j; exact_mod_cast hij)
    (fun i j hij hj => hmono i j hij hj)
  rw [hid] at hpos
  unfold slopeNum
  linarith

theorem slopeNum_replicate (n : Nat) (c : ℚ) :
    slopeNum (List.replicate n c) = 0 := by
  unfold slopeNum seriesY
  rw [List.length_replicate]
  have h1 : ∑ i in Finset.range n, (i : ℚ) * (List.replicate n c).getD i 0
      = (∑ i in Finset.range n, (i : ℚ)) * c := by
    rw [Finset.sum_mul]
    apply Finset.sum_congr rfl
    intro i hi
    rw [List.getD_eq_getElem?_getD, List.getElem?_replicate,
      if_pos (Finset.mem_range.mp hi)]
    rfl
  have h2 : ∑ i in Finset.range n, (List.replicate n c).getD i 0 = (n : ℚ) * c := by
    rw [show ∑ i in Finset.range n, (List.replicate n c).getD i 0
        = ∑ _i in Finset.range n, c from Finset.sum_congr rfl fun i hi => by
          rw [List.getD_eq_getElem?_getD, List.getElem?_replicate,
            if_pos (Finset.mem_range.mp hi)]
          rfl]
    rw [Finset.sum_const, Finset.card_range, nsmul_eq_mul]
  rw [h1, h2]
  ring

/-- **C7 (amended)** — `_calculate_trend` returns exactly 0 for every
constant series; and it returns a strictly positive value for every
monotonically (strictly) increasing series of length at least 2 whose
first value is positive (for a series whose first value is not positive,
the normalization guard returns 0 instead). -/
theorem linear_trend_signs :
    (∀ (n : Nat) (c : ℚ), calculateTrend (List.replicate n c) = 0) ∧
    (∀ ys : List ℚ, 2 ≤ ys.length →
      (∀ i j, i < j → j < ys.length → ys.getD i 0 < ys.getD j 0) →
      0 < ys.getD 0 0 → 0 < calculateTrend ys) := by
  constructor
  · intro n c
    unfold calculateTrend
    by_cases hn : (List.replicate n c).length < 2
    · rw [if_pos hn]
    · rw [if_neg hn]
      by_cases hc : 0 < (List.replicate n c).getD 0 0
      · rw [if_pos hc]
        unfold polyfitSlope
        rw [slopeNum_replicate]
        simp
      · rw [if_neg hc]
  · intro ys hlen hmono h0
    unfold calculateTrend
    rw [if_neg (by omega), if_pos h0]
    have hs : 0 < polyfitSlope ys :=
      div_pos (slopeNum_pos hlen hmono) (slopeDen_pos hlen)
    exact mul_pos (div_pos hs h0) (by norm_num)

/-- Counterexample to C7 as stated: `[0, 1]` is a monotonically increasing
series, yet the trend is 0, not strictly positive — its first value is 0,
so the percent normalization returns the 0 fallback. -/
theorem linear_trend_signs_counterexample :
    ((0 : ℚ) < 1) ∧ calculateTrend [(0 : ℚ), 1] = 0 := by
  constructor
  · norm_num
  · norm_num [calculateTrend, List.getD]

/-- Witness for the amended C7: the constant series `[7, 7, 7]` has trend
0, and the increasing positive series `[1, 2]` has positive trend. -/
theorem linear_trend_signs_witness :
    calculateTrend (List.replicate 3 (7 : ℚ)) = 0 ∧
    0 < calculateTrend [(1 : ℚ), 2] :=
  ⟨linear_trend_signs.1 3 7,
   linear_trend_signs.2 [1, 2] (by norm_num)
     (by
       intro i j hij hj
       norm_num at hj
       interval_cases j <;> interval_cases i <;> norm_num [List.getD])
     (by norm_num [List.getD])⟩

end FitnessApp
